import Mathlib

/-!
# Compile-time resource checker: embedding of `compile_time_resmgr.c`

The checker is a set of C preprocessor definitions.  Each of them expands, where it is
used, to declarations of enumeration constants whose values are taken from the
preprocessor counter `__COUNTER__`, to static assertions over those constants, and to
calls of two run-time functions per resource type.

The embedding has two parts.

* Build time.  `Build` is the state of one pass of the compiler over a translation unit:
  the value the next expansion of `__COUNTER__` yields, the enumeration constants that
  are visible (per open C block, innermost block first), and the diagnostics that fail
  the build.  A definition of the source is embedded as a function `Build → Build` with
  the name it has in the source; token pasting `a##b` is string concatenation and `#a`
  is the string itself.
* Run time.  `acquire_impl` and `release_impl` are the two functions that
  `DECLARE_RESOURCE_TYPE` defines, over an explicit `Runtime` (standard output and the
  calls made to the underlying release function).

Integers: enumeration constants are C `int`s.  All values that occur are counter values
and differences of two of them, so they are exact as long as the counter stays below
`2^31`; they are modelled by `Int`, and `%` is C's truncating remainder `Int.tmod`.

The diagnostics recorded are those of the checker itself (a failed static assertion, a
constant expression that names an undeclared constant, a closing brace without a
block).  The rules of C on the client program that do not come from the checker (one
declaration per identifier and block, variables declared before use, declared resource
types) are not modelled: a new declaration of a name hides the earlier one.
-/

namespace ResMgr

/-! ## Build-time state -/

/-- Enumeration constants declared in one C block, the most recent first. -/
abbrev Frame := List (String × Int)

/-- Diagnostic that fails the build. -/
inductive Diag where
  /-- A `_Static_assert` whose condition is false, with its message. -/
  | static_assertion (msg : String)
  /-- A constant expression that uses an identifier with no visible declaration. -/
  | undeclared
  /-- A closing brace with no open block. -/
  | stray_brace
  deriving DecidableEq, Repr

/-- State of one build pass. -/
structure Build where
  /-- Value of the next expansion of `__COUNTER__`. -/
  counter : Nat
  /-- Enumeration constants of the innermost open block. -/
  top : Frame
  /-- Enumeration constants of the enclosing blocks, innermost first. -/
  outer : List Frame
  /-- Diagnostics so far, oldest first; the build succeeds when there is none. -/
  diags : List Diag
  deriving DecidableEq, Repr

/-- Start of a build pass: the counter is at its base value `0`, nothing is declared. -/
def Build.start : Build := { counter := 0, top := [], outer := [], diags := [] }

/-- The build pass has failed. -/
def Build.failed (b : Build) : Prop := b.diags ≠ []

instance (b : Build) : Decidable b.failed := by
  unfold Build.failed; infer_instance

/-- Modelled from the spec: the predefined `__COUNTER__` of the compiler, which is not
part of the repository.  The spec has it return a fixed base value on the first call
and a strictly greater integer on every later call, one sequence number per event; as
compilers implement it, it expands to the current value, `0` at the start of a pass,
and advances by one. -/
def COUNTER (b : Build) : Nat × Build :=
  (b.counter, { b with counter := b.counter + 1 })

/-- `#define NEXT_ID __COUNTER__` (line 35). -/
def NEXT_ID (b : Build) : Nat × Build := COUNTER b

/-- Value of the constant `id` in one block. -/
def Frame.find (id : String) : Frame → Option Int
  | [] => none
  | (k, v) :: rest => if k = id then some v else Frame.find id rest

/-- Value of the constant `id` as C resolves it: innermost block first. -/
def Build.lookup (b : Build) (id : String) : Option Int :=
  match Frame.find id b.top with
  | some v => some v
  | none => b.outer.findSome? (Frame.find id)

/-- `enum { id = v };` in the current block; `v` is `none` when the initialiser does not
evaluate. -/
def define_enum (id : String) (v : Option Int) (b : Build) : Build :=
  match v with
  | some n => { b with top := (id, n) :: b.top }
  | none => { b with diags := b.diags ++ [Diag.undeclared] }

/-- `_Static_assert(cond, msg)`. -/
def static_assert (cond : Option Bool) (msg : String) (b : Build) : Build :=
  match cond with
  | some true => b
  | some false => { b with diags := b.diags ++ [Diag.static_assertion msg] }
  | none => { b with diags := b.diags ++ [Diag.undeclared] }

/-- An opening brace: `do {`, or the start of a function body. -/
def open_block (b : Build) : Build :=
  { b with top := [], outer := b.top :: b.outer }

/-- A closing brace: `} while(0);`, or the end of a function body. -/
def close_block (b : Build) : Build :=
  match b.outer with
  | f :: fs => { b with top := f, outer := fs }
  | [] => { b with diags := b.diags ++ [Diag.stray_brace] }

/-! ## Simplified balanced scope system (lines 107-124) -/

/-- `BALANCED_SCOPE_BEGIN(name)`:
`enum { name##_scope_start = __COUNTER__ }; do {`. -/
def BALANCED_SCOPE_BEGIN (name : String) (b : Build) : Build :=
  open_block (define_enum (name ++ "_scope_start") (some (COUNTER b).1) (COUNTER b).2)

/-- `ACQUIRE_RESOURCE(type, var, scope)`, build-time part:
`enum { scope##_acquire_##var = __COUNTER__ };`.  The statement that follows it,
`type##_resource_t var = type##_acquire_impl(__FILE__, __LINE__)`, runs `acquire_impl`
at run time and expands no counter. -/
def ACQUIRE_RESOURCE (_type var scope : String) (b : Build) : Build :=
  define_enum (scope ++ "_acquire_" ++ var) (some (COUNTER b).1) (COUNTER b).2

/-- `RELEASE_RESOURCE(type, var, scope)`, build-time part:
`enum { scope##_release_##var = __COUNTER__ };`.  The statement that follows it,
`type##_release_impl(&var, __FILE__, __LINE__)`, runs `release_impl` at run time. -/
def RELEASE_RESOURCE (_type var scope : String) (b : Build) : Build :=
  define_enum (scope ++ "_release_" ++ var) (some (COUNTER b).1) (COUNTER b).2

/-- Message of the static assertion of `BALANCED_SCOPE_END(name)`. -/
def scope_leak_message (name : String) : String :=
  "COMPILE-TIME ERROR: Resource leak in scope " ++ name ++ " - unbalanced acquire/release!"

/-- `BALANCED_SCOPE_END(name)`:
`} while(0); enum { name##_scope_end = __COUNTER__ };`
`enum { name##_total_ops = name##_scope_end - name##_scope_start - 1 };`
`_Static_assert(name##_total_ops % 2 == 0, "..." #name "...")`. -/
def BALANCED_SCOPE_END (name : String) (b : Build) : Build :=
  let b1 := close_block b
  let b2 := define_enum (name ++ "_scope_end") (some (COUNTER b1).1) (COUNTER b1).2
  let b3 := define_enum (name ++ "_total_ops")
    (do let e ← b2.lookup (name ++ "_scope_end")
        let s ← b2.lookup (name ++ "_scope_start")
        pure (e - s - 1)) b2
  static_assert
    (do let t ← b3.lookup (name ++ "_total_ops")
        pure (decide (Int.tmod t 2 = 0)))
    (scope_leak_message name) b3

/-! ## Function-level balance verification (lines 163-170) -/

/-- `FUNCTION_BALANCE_START(func_name)`:
`enum { func_name##_start_counter = __COUNTER__ }`. -/
def FUNCTION_BALANCE_START (func_name : String) (b : Build) : Build :=
  define_enum (func_name ++ "_start_counter") (some (COUNTER b).1) (COUNTER b).2

/-- Message of the static assertion of `FUNCTION_BALANCE_END(func_name)`. -/
def function_message (func_name : String) : String :=
  "COMPILE-TIME ERROR: Function " ++ func_name ++ " has unbalanced resource operations!"

/-- `FUNCTION_BALANCE_END(func_name)`:
`enum { func_name##_end_counter = __COUNTER__ };`
`enum { func_name##_op_count = func_name##_end_counter - func_name##_start_counter - 1 };`
`_Static_assert(func_name##_op_count % 2 == 0, "..." #func_name "...")`. -/
def FUNCTION_BALANCE_END (func_name : String) (b : Build) : Build :=
  let b1 := define_enum (func_name ++ "_end_counter") (some (COUNTER b).1) (COUNTER b).2
  let b2 := define_enum (func_name ++ "_op_count")
    (do let e ← b1.lookup (func_name ++ "_end_counter")
        let s ← b1.lookup (func_name ++ "_start_counter")
        pure (e - s - 1)) b1
  static_assert
    (do let t ← b2.lookup (func_name ++ "_op_count")
        pure (decide (Int.tmod t 2 = 0)))
    (function_message func_name) b2

/-! ## Pair-wise resource verification (lines 177-187) -/

/-- Message of the static assertion of `ACQUIRE_RELEASE_PAIR(type, var, scope)`. -/
def pair_message (var scope : String) : String :=
  "COMPILE-TIME ERROR: Missing release for " ++ var ++ " in " ++ scope

/-- `ACQUIRE_RELEASE_PAIR(type, var, scope)`, build-time part:
`enum { scope##_pair_##var##_start = __COUNTER__, scope##_pair_##var##_acq = __COUNTER__ };`
(the call of `acquire_impl`)
`enum { scope##_pair_##var##_rel = __COUNTER__ };`
`_Static_assert(scope##_pair_##var##_rel - scope##_pair_##var##_acq == 1, "...")`
(the call of `release_impl`). -/
def ACQUIRE_RELEASE_PAIR (_type var scope : String) (b : Build) : Build :=
  let b1 := define_enum (scope ++ "_pair_" ++ var ++ "_start") (some (COUNTER b).1) (COUNTER b).2
  let b2 := define_enum (scope ++ "_pair_" ++ var ++ "_acq") (some (COUNTER b1).1) (COUNTER b1).2
  let b3 := define_enum (scope ++ "_pair_" ++ var ++ "_rel") (some (COUNTER b2).1) (COUNTER b2).2
  static_assert
    (do let r ← b3.lookup (scope ++ "_pair_" ++ var ++ "_rel")
        let a ← b3.lookup (scope ++ "_pair_" ++ var ++ "_acq")
        pure (decide (r - a = 1)))
    (pair_message var scope) b3

/-! ## Bodies of scopes -/

/-- One statement of the body of a scope. -/
inductive Op where
  /-- `ACQUIRE_RESOURCE(type, var, scope);`. -/
  | acquire (type var scope : String)
  /-- `RELEASE_RESOURCE(type, var, scope);`. -/
  | release (type var scope : String)
  /-- Any other statement (a `printf`, an `if`): it expands no counter and declares no
  constant. -/
  | stmt
  deriving DecidableEq, Repr

/-- Build-time effect of one statement. -/
def Op.run : Op → Build → Build
  | Op.acquire t v s, b => ACQUIRE_RESOURCE t v s b
  | Op.release t v s, b => RELEASE_RESOURCE t v s b
  | Op.stmt, b => b

/-- Build-time effect of a sequence of statements, in textual order. -/
def run_ops : List Op → Build → Build
  | [], b => b
  | op :: rest, b => run_ops rest (op.run b)

/-- Number of `ACQUIRE_RESOURCE` operations in a body. -/
def acquires : List Op → Nat
  | [] => 0
  | Op.acquire _ _ _ :: rest => acquires rest + 1
  | _ :: rest => acquires rest

/-- Number of `RELEASE_RESOURCE` operations in a body. -/
def releases : List Op → Nat
  | [] => 0
  | Op.release _ _ _ :: rest => releases rest + 1
  | _ :: rest => releases rest

/-- Number of `ACQUIRE_RESOURCE` and `RELEASE_RESOURCE` operations in a body. -/
def events (body : List Op) : Nat := acquires body + releases body

/-- The region `BALANCED_SCOPE_BEGIN(name) body BALANCED_SCOPE_END(name);`. -/
def BALANCED_SCOPE (name : String) (body : List Op) (b : Build) : Build :=
  BALANCED_SCOPE_END name (run_ops body (BALANCED_SCOPE_BEGIN name b))

/-- Diagnostics that the static assertion of `BALANCED_SCOPE_END(name)` adds when
`name##_total_ops` is `k`: none for an even `k`, the leak message for an odd one. -/
def scope_verdict (name : String) (k : Nat) : List Diag :=
  if k % 2 = 0 then [] else [Diag.static_assertion (scope_leak_message name)]

/-! ## Resource types (lines 130-157) -/

/-- The struct `type_name##_resource_t`. -/
structure resource_t where
  /-- The native handle `void* handle`; `0` is `NULL`. -/
  handle : Nat
  id : Int
  file : String
  line : Int
  deriving DecidableEq, Repr

/-- What one use of `DECLARE_RESOURCE_TYPE(type_name)` defines.  The bodies of
`type_name##_acquire_impl` and `type_name##_release_impl` are part of the replacement
text of `DECLARE_RESOURCE_TYPE`, so the `NEXT_ID` in `res.id = NEXT_ID` is expanded
where the type is declared (lines 194 and 205), once, and `next_id` is the integer it
expanded to. -/
structure ResourceType where
  type_name : String
  next_id : Nat
  deriving DecidableEq, Repr

/-- `DECLARE_RESOURCE_TYPE(type_name)`: declares the struct and the two functions, and
expands `NEXT_ID` once, in the body of `type_name##_acquire_impl`. -/
def DECLARE_RESOURCE_TYPE (type_name : String) (b : Build) : ResourceType × Build :=
  ({ type_name := type_name, next_id := (NEXT_ID b).1 }, (NEXT_ID b).2)

/-- Run-time state that the two functions act on. -/
structure Runtime where
  /-- Lines written to standard output by `printf`, oldest first. -/
  out : List String
  /-- Calls `type_name##_do_release(handle)` made so far, oldest first. -/
  released : List (String × Nat)
  deriving DecidableEq, Repr

/-- Line printed by `type_name##_acquire_impl`:
`printf("[ACQUIRE] " #type_name " #%d at %s:%d\n", res.id, file, line)`. -/
def acquire_log (type_name : String) (id : Int) (file : String) (line : Int) : String :=
  "[ACQUIRE] " ++ type_name ++ " #" ++ toString id ++ " at " ++ file ++ ":" ++
    toString line ++ "\n"

/-- Line printed by `type_name##_release_impl`:
`printf("[RELEASE] " #type_name " #%d at %s:%d\n", res->id, file, line)`. -/
def release_log (type_name : String) (id : Int) (file : String) (line : Int) : String :=
  "[RELEASE] " ++ type_name ++ " #" ++ toString id ++ " at " ++ file ++ ":" ++
    toString line ++ "\n"

/-- `type_name##_acquire_impl(file, line)` (lines 141-149); `native` is the value that the
call `type_name##_do_acquire()` returns. -/
def acquire_impl (T : ResourceType) (native : Nat) (file : String) (line : Int)
    (w : Runtime) : resource_t × Runtime :=
  let res : resource_t := { handle := native, id := T.next_id, file := file, line := line }
  (res, { w with out := w.out ++ [acquire_log T.type_name res.id file line] })

/-- `type_name##_release_impl(res, file, line)` (lines 151-157); `res` is `none` for a
null pointer, and the first component of the result is the struct `res` points to after
the call. -/
def release_impl (T : ResourceType) (res : Option resource_t) (file : String) (line : Int)
    (w : Runtime) : Option resource_t × Runtime :=
  match res with
  | none => (none, w)
  | some r =>
    if r.handle ≠ 0 then
      (some { r with handle := 0 },
        { out := w.out ++ [release_log T.type_name r.id file line],
          released := w.released ++ [(T.type_name, r.handle)] })
    else (some r, w)

/-! ## The sequence allocator, used repeatedly -/

/-- Values that `n` successive expansions of `NEXT_ID` yield, in order, and the state
after them. -/
def next_ids : Nat → Build → List Nat × Build
  | 0, b => ([], b)
  | n + 1, b => ((NEXT_ID b).1 :: (next_ids n (NEXT_ID b).2).1, (next_ids n (NEXT_ID b).2).2)

/-! ## The two test programs -/

/-- The part of `compile_time_resmgr.c` that expands something: the declarations of the
resource types `memory` (line 194) and `file` (line 205). -/
def compile_time_resmgr (b : Build) : (ResourceType × ResourceType) × Build :=
  let m := DECLARE_RESOURCE_TYPE "memory" b
  let f := DECLARE_RESOURCE_TYPE "file" m.2
  ((m.1, f.1), f.2)

/-- Body of `scope1` in `test_balanced.c` (lines 20-31). -/
def scope1_body : List Op :=
  [Op.stmt, Op.acquire "memory" "mem1" "scope1", Op.acquire "file" "f1" "scope1", Op.stmt,
   Op.release "file" "f1" "scope1", Op.release "memory" "mem1" "scope1", Op.stmt]

/-- Body of `scope2` in `test_balanced.c` (lines 35-41). -/
def scope2_body : List Op :=
  [Op.stmt, Op.acquire "memory" "mem2" "scope2", Op.stmt,
   Op.release "memory" "mem2" "scope2", Op.stmt]

/-- The statements of `test_balanced_resources_function` in `test_balanced.c`, between
the braces of the function (lines 15-51). -/
def test_balanced_resources_function_body (b : Build) : Build :=
  let b := FUNCTION_BALANCE_START "balanced_func_scope" b
  let b := BALANCED_SCOPE "scope1" scope1_body b
  let b := BALANCED_SCOPE "scope2" scope2_body b
  let b := ACQUIRE_RELEASE_PAIR "memory" "mem_pair" "pair_scope_balanced" b
  let b := ACQUIRE_RELEASE_PAIR "file" "file_pair" "pair_scope_balanced" b
  FUNCTION_BALANCE_END "balanced_func_scope" b

/-- The function `test_balanced_resources_function` of `test_balanced.c` (lines 14-52). -/
def test_balanced_resources_function (b : Build) : Build :=
  close_block (test_balanced_resources_function_body (open_block b))

/-- The translation unit `test_balanced.c`. -/
def test_balanced : Build :=
  test_balanced_resources_function (compile_time_resmgr Build.start).2

/-- Body of `leak_scope` in `test_unbalanced.c` (lines 20-22). -/
def leak_scope_body : List Op :=
  [Op.acquire "memory" "leaked_mem" "leak_scope", Op.stmt]

/-- The function `test_unbalanced_function` of `test_unbalanced.c` (lines 16-24). -/
def test_unbalanced_function (b : Build) : Build :=
  close_block (BALANCED_SCOPE "leak_scope" leak_scope_body (open_block b))

/-- The translation unit `test_unbalanced.c`. -/
def test_unbalanced : Build :=
  test_unbalanced_function (compile_time_resmgr Build.start).2

/-! ## Tracked scopes (lines 78-100) -/

/-- State of the build inside an enumerator list that is still open.
`BEGIN_TRACKED_SCOPE` ends inside `enum {`, and of the definitions of the source only
`ACQUIRE_TRACKED`, which starts with a comma, can follow it; the enumerators read so far
are declared already, as C declares each enumerator where it ends. -/
structure OpenEnum where
  build : Build
  deriving DecidableEq, Repr

/-- `BEGIN_TRACKED_SCOPE(scope_name)`:
`do { enum { scope_name##_start = __COUNTER__, scope_name##_balance = 0`. -/
def BEGIN_TRACKED_SCOPE (scope_name : String) (b : Build) : OpenEnum :=
  let b1 := open_block b
  let b2 := define_enum (scope_name ++ "_start") (some (COUNTER b1).1) (COUNTER b1).2
  { build := define_enum (scope_name ++ "_balance") (some 0) b2 }

/-- `ACQUIRE_TRACKED(type_name, var_name, scope_name)`, build-time part:
`, scope_name##_acq_##var_name = __COUNTER__ };`
`enum { scope_name##_balance_after_##var_name = scope_name##_balance + 1 };`
(the call of `acquire_impl`). -/
def ACQUIRE_TRACKED (_type_name var_name scope_name : String) (e : OpenEnum) : Build :=
  let b1 := define_enum (scope_name ++ "_acq_" ++ var_name)
    (some (COUNTER e.build).1) (COUNTER e.build).2
  define_enum (scope_name ++ "_balance_after_" ++ var_name)
    (do let bal ← b1.lookup (scope_name ++ "_balance")
        pure (bal + 1)) b1

/-- `RELEASE_TRACKED(type_name, var_name, scope_name)`, build-time part:
`enum { scope_name##_rel_##var_name = __COUNTER__ };`
`enum { scope_name##_balance_after_rel_##var_name = scope_name##_balance_after_##var_name - 1 };`
(the call of `release_impl`). -/
def RELEASE_TRACKED (_type_name var_name scope_name : String) (b : Build) : Build :=
  let b1 := define_enum (scope_name ++ "_rel_" ++ var_name) (some (COUNTER b).1) (COUNTER b).2
  define_enum (scope_name ++ "_balance_after_rel_" ++ var_name)
    (do let bal ← b1.lookup (scope_name ++ "_balance_after_" ++ var_name)
        pure (bal - 1)) b1

/-- Message of the static assertion of `END_TRACKED_SCOPE(scope_name)`. -/
def tracked_message (scope_name : String) : String :=
  "COMPILE-TIME ERROR: Unbalanced resources in scope " ++ scope_name

/-- `END_TRACKED_SCOPE(scope_name)`:
`enum { scope_name##_end = __COUNTER__ };`
`_Static_assert((scope_name##_end - scope_name##_start) % 2 == 0, "..." #scope_name);`
`} while(0)`. -/
def END_TRACKED_SCOPE (scope_name : String) (b : Build) : Build :=
  let b1 := define_enum (scope_name ++ "_end") (some (COUNTER b).1) (COUNTER b).2
  let b2 := static_assert
    (do let e ← b1.lookup (scope_name ++ "_end")
        let s ← b1.lookup (scope_name ++ "_start")
        pure (decide (Int.tmod (e - s) 2 = 0)))
    (tracked_message scope_name) b1
  close_block b2

/-! ## Bodies of functions -/

/-- One item of the body of a function that is bracketed by `FUNCTION_BALANCE_START` and
`FUNCTION_BALANCE_END`. -/
inductive Item where
  /-- A region `BALANCED_SCOPE_BEGIN(name) body BALANCED_SCOPE_END(name);`. -/
  | scope (name : String) (body : List Op)
  /-- `ACQUIRE_RELEASE_PAIR(type, var, scope);`. -/
  | pair (type var scope : String)
  /-- A statement directly in the function body: an `ACQUIRE_RESOURCE`, a
  `RELEASE_RESOURCE` or any other statement. -/
  | direct (op : Op)
  deriving DecidableEq, Repr

/-- Build-time effect of one item. -/
def Item.run : Item → Build → Build
  | Item.scope name body, b => BALANCED_SCOPE name body b
  | Item.pair t v s, b => ACQUIRE_RELEASE_PAIR t v s b
  | Item.direct op, b => op.run b

/-- Build-time effect of a sequence of items, in textual order. -/
def run_items : List Item → Build → Build
  | [], b => b
  | it :: rest, b => run_items rest (it.run b)

/-- The region `FUNCTION_BALANCE_START(func_name); items FUNCTION_BALANCE_END(func_name);`. -/
def FUNCTION_BALANCE (func_name : String) (items : List Item) (b : Build) : Build :=
  FUNCTION_BALANCE_END func_name (run_items items (FUNCTION_BALANCE_START func_name b))

/-- Sum of `k + 2` over the scope regions of a function body, `k` the number of
`ACQUIRE_RESOURCE` and `RELEASE_RESOURCE` operations in the scope. -/
def scope_ids : List Item → Nat
  | [] => 0
  | Item.scope _ body :: rest => (events body + 2) + scope_ids rest
  | _ :: rest => scope_ids rest

/-- Number of `ACQUIRE_RELEASE_PAIR` uses directly in a function body. -/
def pairs : List Item → Nat
  | [] => 0
  | Item.pair _ _ _ :: rest => pairs rest + 1
  | _ :: rest => pairs rest

/-- Number of `ACQUIRE_RESOURCE` and `RELEASE_RESOURCE` operations directly in a function
body. -/
def direct_events : List Item → Nat
  | [] => 0
  | Item.direct op :: rest => events [op] + direct_events rest
  | _ :: rest => direct_events rest

/-- Diagnostics of the scope regions of a function body, in textual order. -/
def inner_verdicts : List Item → List Diag
  | [] => []
  | Item.scope name body :: rest => scope_verdict name (events body) ++ inner_verdicts rest
  | _ :: rest => inner_verdicts rest

/-- Diagnostics that the static assertion of `FUNCTION_BALANCE_END(func_name)` adds when
`func_name##_op_count` is `k`. -/
def function_verdict (func_name : String) (k : Nat) : List Diag :=
  if k % 2 = 0 then [] else [Diag.static_assertion (function_message func_name)]

/-- The enumeration constant that a statement declares, if any. -/
def Op.constant : Op → Option String
  | Op.acquire _ v s => some (s ++ "_acquire_" ++ v)
  | Op.release _ v s => some (s ++ "_release_" ++ v)
  | Op.stmt => none

/-- The region `BALANCED_SCOPE_BEGIN(name) items BALANCED_SCOPE_END(name);` whose body
may hold pairs and scope regions besides plain statements. -/
def BALANCED_SCOPE_ITEMS (name : String) (items : List Item) (b : Build) : Build :=
  BALANCED_SCOPE_END name (run_items items (BALANCED_SCOPE_BEGIN name b))

/-- Number of calls of `type##_acquire_impl` that the items expand to: one per
`ACQUIRE_RESOURCE`, directly or in a scope region, and one per `ACQUIRE_RELEASE_PAIR`
(line 182). -/
def acquire_calls : List Item → Nat
  | [] => 0
  | Item.scope _ body :: rest => acquires body + acquire_calls rest
  | Item.pair _ _ _ :: rest => 1 + acquire_calls rest
  | Item.direct op :: rest => acquires [op] + acquire_calls rest

/-- Number of calls of `type##_release_impl` that the items expand to: one per
`RELEASE_RESOURCE`, directly or in a scope region, and one per `ACQUIRE_RELEASE_PAIR`
(line 187). -/
def release_calls : List Item → Nat
  | [] => 0
  | Item.scope _ body :: rest => releases body + release_calls rest
  | Item.pair _ _ _ :: rest => 1 + release_calls rest
  | Item.direct op :: rest => releases [op] + release_calls rest

/-- The enumeration constant that an item declares under a name that its variable
decides: the constant of a direct `ACQUIRE_RESOURCE` or `RELEASE_RESOURCE`.  (The
constants of scope regions and pairs end in `_scope_start`, `_scope_end`, `_total_ops`,
`_start`, `_acq` or `_rel`.) -/
def Item.constant : Item → Option String
  | Item.direct op => op.constant
  | _ => none

/-- The items of `test_balanced_resources_function` in `test_balanced.c` between
`FUNCTION_BALANCE_START` (line 17) and `FUNCTION_BALANCE_END` (line 50). -/
def test_balanced_items : List Item :=
  [Item.scope "scope1" scope1_body, Item.scope "scope2" scope2_body, Item.direct Op.stmt,
   Item.pair "memory" "mem_pair" "pair_scope_balanced",
   Item.pair "file" "file_pair" "pair_scope_balanced", Item.direct Op.stmt]

/-! ## Text of diagnostics and log lines -/

/-- The text `s` contains the text `sub`. -/
def contains (s sub : String) : Prop := sub.data <:+: s.data

instance (s sub : String) : Decidable (contains s sub) := by
  unfold contains; infer_instance

/-- The text `s` with every capital letter replaced by its small letter. -/
def lower (s : String) : String := ⟨s.data.map Char.toLower⟩

/-! ## Auxiliary facts -/

theorem append_left_ne (n : String) {x y : String} (h : x ≠ y) : n ++ x ≠ n ++ y := by
  intro e
  apply h
  have e2 := congrArg String.data e
  simp only [String.data_append, List.append_cancel_left_eq] at e2
  exact String.ext e2

@[simp] theorem Frame.find_cons_self (id : String) (v : Int) (f : Frame) :
    Frame.find id ((id, v) :: f) = some v := by
  simp [Frame.find]

theorem Frame.find_cons_ne {k id : String} (h : k ≠ id) (v : Int) (f : Frame) :
    Frame.find id ((k, v) :: f) = Frame.find id f := by
  simp [Frame.find, h]

theorem Op.run_counter (op : Op) (b : Build) :
    (op.run b).counter = b.counter + events [op] := by
  cases op <;> simp [Op.run, ACQUIRE_RESOURCE, RELEASE_RESOURCE, define_enum, COUNTER, events,
    acquires, releases]

theorem Op.run_outer (op : Op) (b : Build) : (op.run b).outer = b.outer := by
  cases op <;> simp [Op.run, ACQUIRE_RESOURCE, RELEASE_RESOURCE, define_enum, COUNTER]

theorem Op.run_diags (op : Op) (b : Build) : (op.run b).diags = b.diags := by
  cases op <;> simp [Op.run, ACQUIRE_RESOURCE, RELEASE_RESOURCE, define_enum, COUNTER]

theorem events_cons (op : Op) (body : List Op) :
    events (op :: body) = events [op] + events body := by
  cases op <;> simp [events, acquires, releases] <;> omega

theorem run_ops_counter (body : List Op) (b : Build) :
    (run_ops body b).counter = b.counter + events body := by
  induction body generalizing b with
  | nil => simp [run_ops, events, acquires, releases]
  | cons op rest ih =>
    rw [run_ops, ih, Op.run_counter, events_cons op rest]; omega

theorem run_ops_outer (body : List Op) (b : Build) : (run_ops body b).outer = b.outer := by
  induction body generalizing b with
  | nil => rfl
  | cons op rest ih => rw [run_ops, ih, Op.run_outer]

theorem run_ops_diags (body : List Op) (b : Build) : (run_ops body b).diags = b.diags := by
  induction body generalizing b with
  | nil => rfl
  | cons op rest ih => rw [run_ops, ih, Op.run_diags]

theorem tmod_two_natCast (k : Nat) : Int.tmod (k : Int) 2 = 0 ↔ k % 2 = 0 := by
  have : Int.tmod (k : Int) 2 = ((k % 2 : Nat) : Int) := by
    rw [Int.tmod_eq_emod (by omega) (by omega)]; omega
  rw [this]; omega

/-- The end of a scope, on a state whose enclosing block holds the start marker `s` and
whose counter is `k + 1` past it. -/
theorem BALANCED_SCOPE_END_eq (name : String) (r : Build) (f : Frame) (fs : List Frame)
    (s : Nat) (k : Nat) (hout : r.outer = f :: fs)
    (hs : Frame.find (name ++ "_scope_start") f = some (s : Int))
    (hk : r.counter = s + 1 + k) :
    BALANCED_SCOPE_END name r =
      { counter := r.counter + 1,
        top := (name ++ "_total_ops", (k : Int)) ::
          (name ++ "_scope_end", (r.counter : Int)) :: f,
        outer := fs,
        diags := r.diags ++ scope_verdict name k } := by
  have h1 : name ++ "_scope_end" ≠ name ++ "_scope_start" := append_left_ne name (by decide)
  have h2 : (r.counter : Int) - (s : Int) - 1 = (k : Int) := by rw [hk]; push_cast; ring
  simp only [BALANCED_SCOPE_END, close_block, hout, COUNTER, define_enum, Build.lookup,
    Frame.find_cons_self, Frame.find_cons_ne h1, hs, bind, Option.bind, pure, h2]
  by_cases hpar : k % 2 = 0
  · simp [static_assert, scope_verdict, hpar, (tmod_two_natCast k).2 hpar]
  · have : ¬ Int.tmod (k : Int) 2 = 0 := fun h => hpar ((tmod_two_natCast k).1 h)
    simp [static_assert, scope_verdict, hpar, this]

/-- The whole state after a scope region, for every state before it. -/
theorem BALANCED_SCOPE_eq (name : String) (body : List Op) (b : Build) :
    BALANCED_SCOPE name body b =
      { counter := b.counter + events body + 2,
        top := (name ++ "_total_ops", (events body : Int)) ::
          (name ++ "_scope_end", ((b.counter + 1 + events body : Nat) : Int)) ::
          (name ++ "_scope_start", (b.counter : Int)) :: b.top,
        outer := b.outer,
        diags := b.diags ++ scope_verdict name (events body) } := by
  unfold BALANCED_SCOPE
  have hc : (run_ops body (BALANCED_SCOPE_BEGIN name b)).counter
      = b.counter + 1 + events body := by
    rw [run_ops_counter]; simp [BALANCED_SCOPE_BEGIN, open_block, define_enum, COUNTER]
  have ho : (run_ops body (BALANCED_SCOPE_BEGIN name b)).outer
      = ((name ++ "_scope_start", (b.counter : Int)) :: b.top) :: b.outer := by
    rw [run_ops_outer]; simp [BALANCED_SCOPE_BEGIN, open_block, define_enum, COUNTER]
  have hd : (run_ops body (BALANCED_SCOPE_BEGIN name b)).diags = b.diags := by
    rw [run_ops_diags]; simp [BALANCED_SCOPE_BEGIN, open_block, define_enum, COUNTER]
  rw [BALANCED_SCOPE_END_eq name _ _ _ b.counter (events body) ho (by simp) hc, hc, hd]
  simp; omega

theorem BALANCED_SCOPE_diags (name : String) (body : List Op) (b : Build) :
    (BALANCED_SCOPE name body b).diags = b.diags ++ scope_verdict name (events body) := by
  rw [BALANCED_SCOPE_eq]

theorem scope_verdict_even {name : String} {k : Nat} (h : k % 2 = 0) :
    scope_verdict name k = [] := by
  simp [scope_verdict, h]

theorem scope_verdict_odd {name : String} {k : Nat} (h : k % 2 = 1) :
    scope_verdict name k = [Diag.static_assertion (scope_leak_message name)] := by
  simp [scope_verdict, h]

theorem scope_leak_message_contains (name : String) :
    ∃ pre post : String, scope_leak_message name = pre ++ name ++ post :=
  ⟨_, _, rfl⟩

/-- The whole state after a pair, for every state before it. -/
theorem ACQUIRE_RELEASE_PAIR_eq (type var scope : String) (b : Build) :
    ACQUIRE_RELEASE_PAIR type var scope b =
      { counter := b.counter + 3,
        top := (scope ++ "_pair_" ++ var ++ "_rel", (b.counter : Int) + 2) ::
          (scope ++ "_pair_" ++ var ++ "_acq", (b.counter : Int) + 1) ::
          (scope ++ "_pair_" ++ var ++ "_start", (b.counter : Int)) :: b.top,
        outer := b.outer,
        diags := b.diags } := by
  have h1 : scope ++ "_pair_" ++ var ++ "_rel" ≠ scope ++ "_pair_" ++ var ++ "_acq" :=
    append_left_ne _ (by decide)
  simp [ACQUIRE_RELEASE_PAIR, COUNTER, define_enum, Build.lookup, Frame.find_cons_ne h1,
    static_assert]
  ring

theorem next_ids_fst (n : Nat) (b : Build) : (next_ids n b).1 = List.range' b.counter n := by
  induction n generalizing b with
  | zero => rfl
  | succ n ih => simp [next_ids, ih, NEXT_ID, COUNTER, List.range']

theorem next_ids_snd (n : Nat) (b : Build) :
    (next_ids n b).2 = { b with counter := b.counter + n } := by
  induction n generalizing b with
  | zero => rfl
  | succ n ih => simp [next_ids, ih, NEXT_ID, COUNTER]; omega

/-! ## The scope-level check -/

/-- C1: for every state before the region (so every initial counter value), every scope
name and every body, with `k` the number of `ACQUIRE_RESOURCE` and `RELEASE_RESOURCE`
operations in the body (any mix, any order, any resource types, `k = 0` included): the
region `BALANCED_SCOPE_BEGIN(name) ... BALANCED_SCOPE_END(name)` adds no diagnostic
exactly when `k` is even, it adds exactly the failed static assertion of the scope
exactly when `k` is odd, and the build has failed after it exactly when it had failed
before or `k` is odd. -/
theorem balanced_scope_passes_iff_even (b : Build) (name : String) (body : List Op) :
    ((BALANCED_SCOPE name body b).diags = b.diags ↔ Even (events body)) ∧
    ((BALANCED_SCOPE name body b).diags
        = b.diags ++ [Diag.static_assertion (scope_leak_message name)]
      ↔ ¬ Even (events body)) ∧
    ((BALANCED_SCOPE name body b).failed ↔ b.failed ∨ ¬ Even (events body)) := by
  rcases Nat.mod_two_eq_zero_or_one (events body) with h | h
  · simp [Build.failed, BALANCED_SCOPE_diags, Nat.even_iff, scope_verdict_even h, h]
  · simp [Build.failed, BALANCED_SCOPE_diags, Nat.even_iff, scope_verdict_odd h, h]

/-- C2, counterexample: a scope whose body is one `ACQUIRE_RELEASE_PAIR`, at the place of
`scope2` in `test_balanced.c`, holds no `ACQUIRE_RESOURCE` and no `RELEASE_RESOURCE`
operation and makes one acquire and one release call, and its `scope2_total_ops` is 3;
a scope whose body is an empty scope region holds no operation at all and its
`scope2_total_ops` is 2. -/
theorem total_ops_counts_more_than_operations :
    direct_events [Item.pair "memory" "mem2" "scope2"] = 0 ∧
    acquire_calls [Item.pair "memory" "mem2" "scope2"] = 1 ∧
    release_calls [Item.pair "memory" "mem2" "scope2"] = 1 ∧
    (BALANCED_SCOPE_ITEMS "scope2" [Item.pair "memory" "mem2" "scope2"]
        (open_block (compile_time_resmgr Build.start).2)).lookup "scope2_total_ops"
      = some 3 ∧
    direct_events [Item.scope "inner" []] = 0 ∧
    acquire_calls [Item.scope "inner" []] = 0 ∧
    release_calls [Item.scope "inner" []] = 0 ∧
    (BALANCED_SCOPE_ITEMS "scope2" [Item.scope "inner" []]
        (open_block (compile_time_resmgr Build.start).2)).lookup "scope2_total_ops"
      = some 2 := by
  decide

/-- C2, amended: for every state before the region (so every initial counter value) and
every body made only of `ACQUIRE_RESOURCE` and `RELEASE_RESOURCE` operations and of
statements that expand no counter, the constant `name##_total_ops` that
`BALANCED_SCOPE_END` computes as exit id - entry id - 1 is the number of those
operations: the entry id is the counter before the region, the exit id is that plus one
plus the number of operations, every single operation and the begin marker advance the
counter by exactly one, and the value is not negative. -/
theorem total_ops_eq_events (b : Build) (name : String) (body : List Op) :
    (BALANCED_SCOPE name body b).lookup (name ++ "_scope_start") = some (b.counter : Int) ∧
    (BALANCED_SCOPE name body b).lookup (name ++ "_scope_end")
      = some ((b.counter : Int) + 1 + (events body : Int)) ∧
    (BALANCED_SCOPE name body b).lookup (name ++ "_total_ops") = some (events body : Int) ∧
    (∃ n : Int, (BALANCED_SCOPE name body b).lookup (name ++ "_total_ops") = some n ∧ 0 ≤ n) ∧
    (BALANCED_SCOPE_BEGIN name b).counter = b.counter + 1 ∧
    (run_ops body (BALANCED_SCOPE_BEGIN name b)).counter = b.counter + 1 + events body ∧
    (∀ (t v s : String) (x : Build), (ACQUIRE_RESOURCE t v s x).counter = x.counter + 1) ∧
    (∀ (t v s : String) (x : Build), (RELEASE_RESOURCE t v s x).counter = x.counter + 1) := by
  have h1 : name ++ "_total_ops" ≠ name ++ "_scope_start" := append_left_ne name (by decide)
  have h2 : name ++ "_scope_end" ≠ name ++ "_scope_start" := append_left_ne name (by decide)
  have h3 : name ++ "_total_ops" ≠ name ++ "_scope_end" := append_left_ne name (by decide)
  have hb : (BALANCED_SCOPE_BEGIN name b).counter = b.counter + 1 := by
    simp [BALANCED_SCOPE_BEGIN, open_block, define_enum, COUNTER]
  rw [BALANCED_SCOPE_eq]
  refine ⟨?_, ?_, ?_, ⟨(events body : Int), ?_, by omega⟩, hb, ?_, ?_, ?_⟩
  · simp [Build.lookup, Frame.find_cons_ne h1, Frame.find_cons_ne h2]
  · simp [Build.lookup, Frame.find_cons_ne h3]
  · simp [Build.lookup]
  · simp [Build.lookup]
  · rw [run_ops_counter, hb]
  · intro t v s x; simp [ACQUIRE_RESOURCE, define_enum, COUNTER]
  · intro t v s x; simp [RELEASE_RESOURCE, define_enum, COUNTER]

/-- C4: for every state before the region (so every initial counter value), every scope
name and every body with exactly one `ACQUIRE_RESOURCE` (of any resource type) and no
`RELEASE_RESOURCE`, the region adds exactly one diagnostic, the failed static assertion
of the scope, the build has failed, and the message of that diagnostic contains the
name of the scope. -/
theorem single_acquire_fails_with_scope_name (b : Build) (name : String) (body : List Op)
    (ha : acquires body = 1) (hr : releases body = 0) :
    (BALANCED_SCOPE name body b).diags
      = b.diags ++ [Diag.static_assertion (scope_leak_message name)] ∧
    (BALANCED_SCOPE name body b).failed ∧
    ∃ pre post : String, scope_leak_message name = pre ++ name ++ post := by
  have h : events body % 2 = 1 := by unfold events; omega
  refine ⟨?_, ?_, scope_leak_message_contains name⟩
  · simp [BALANCED_SCOPE_diags, scope_verdict_odd h]
  · simp [BALANCED_SCOPE_diags, scope_verdict_odd h, Build.failed]

/-- C4, on the test: `leak_scope` of `test_unbalanced.c`, a single memory acquire. -/
theorem single_acquire_fails_with_scope_name_witness :
    acquires leak_scope_body = 1 ∧ releases leak_scope_body = 0 ∧
    (BALANCED_SCOPE "leak_scope" leak_scope_body
        (open_block (compile_time_resmgr Build.start).2)).diags
      = (open_block (compile_time_resmgr Build.start).2).diags
        ++ [Diag.static_assertion (scope_leak_message "leak_scope")] ∧
    (BALANCED_SCOPE "leak_scope" leak_scope_body
        (open_block (compile_time_resmgr Build.start).2)).failed ∧
    ∃ pre post : String, scope_leak_message "leak_scope" = pre ++ "leak_scope" ++ post :=
  ⟨by decide, by decide,
    single_acquire_fails_with_scope_name _ "leak_scope" leak_scope_body
      (by decide) (by decide)⟩

/-- C5: the code at the failing input.  A scope whose body holds two `ACQUIRE_RESOURCE`
and no `RELEASE_RESOURCE` (the function of `test_unbalanced.c` with a second acquire
added) has unequal numbers of acquires and releases, and the build does not fail: the
static assertion of `BALANCED_SCOPE_END` holds, on `leak_scope_total_ops = 2`. -/
theorem two_acquires_no_release_not_rejected :
    acquires [Op.acquire "memory" "leaked_mem" "leak_scope",
      Op.acquire "memory" "leaked_mem2" "leak_scope", Op.stmt] = 2 ∧
    releases [Op.acquire "memory" "leaked_mem" "leak_scope",
      Op.acquire "memory" "leaked_mem2" "leak_scope", Op.stmt] = 0 ∧
    (BALANCED_SCOPE "leak_scope" [Op.acquire "memory" "leaked_mem" "leak_scope",
      Op.acquire "memory" "leaked_mem2" "leak_scope", Op.stmt]
        (open_block (compile_time_resmgr Build.start).2)).lookup "leak_scope_total_ops"
      = some 2 ∧
    ¬ (close_block (BALANCED_SCOPE "leak_scope" [Op.acquire "memory" "leaked_mem" "leak_scope",
      Op.acquire "memory" "leaked_mem2" "leak_scope", Op.stmt]
        (open_block (compile_time_resmgr Build.start).2))).failed := by
  decide

/-- C6: for every state before the region (so every initial counter value), every scope
name and every body with exactly two `ACQUIRE_RESOURCE` and no `RELEASE_RESOURCE`, the
region adds no diagnostic (the parity check passes, on `name##_total_ops = 2`), although
the numbers of acquires and of releases differ. -/
theorem two_acquires_pass_parity_check (b : Build) (name : String) (body : List Op)
    (ha : acquires body = 2) (hr : releases body = 0) :
    (BALANCED_SCOPE name body b).diags = b.diags ∧
    ((BALANCED_SCOPE name body b).failed ↔ b.failed) ∧
    (BALANCED_SCOPE name body b).lookup (name ++ "_total_ops") = some 2 ∧
    acquires body ≠ releases body := by
  have he : events body = 2 := by unfold events; omega
  have h : events body % 2 = 0 := by omega
  refine ⟨?_, ?_, ?_, by omega⟩
  · simp [BALANCED_SCOPE_diags, scope_verdict_even h]
  · simp [BALANCED_SCOPE_diags, scope_verdict_even h, Build.failed]
  · rw [BALANCED_SCOPE_eq, he]; simp [Build.lookup]

/-- C6, existence: a scope with two acquires of memory and no release, at the start of a
build, is accepted. -/
theorem two_acquires_pass_parity_check_witness :
    ∃ body : List Op, acquires body = 2 ∧ releases body = 0 ∧
      (BALANCED_SCOPE "s" body Build.start).diags = [] ∧
      ¬ (BALANCED_SCOPE "s" body Build.start).failed ∧
      (BALANCED_SCOPE "s" body Build.start).lookup ("s" ++ "_total_ops") = some 2 ∧
      acquires body ≠ releases body :=
  ⟨[Op.acquire "memory" "a" "s", Op.acquire "memory" "b" "s"], by decide, by decide,
    (two_acquires_pass_parity_check Build.start "s" _ (by decide) (by decide)).1,
    fun h => absurd ((two_acquires_pass_parity_check Build.start "s" _
      (by decide) (by decide)).2.1.1 h) (by decide),
    (two_acquires_pass_parity_check Build.start "s" _ (by decide) (by decide)).2.2⟩

/-! ## The pair-wise combinator -/

/-- C7: for every resource type, variable name, scope name and state before it (so every
initial counter value), `ACQUIRE_RELEASE_PAIR` binds its acquire id to the counter plus
one and its release id to the counter plus two, one more than the acquire id, and adds
no diagnostic: its static assertion holds on every use.  On the test, the memory pair
gets the ids 14 and 15 and the file pair the ids 17 and 18, and `test_balanced.c` builds. -/
theorem pair_release_id_is_acquire_id_plus_one (type var scope : String) (b : Build) :
    (ACQUIRE_RELEASE_PAIR type var scope b).lookup (scope ++ "_pair_" ++ var ++ "_acq")
      = some ((b.counter : Int) + 1) ∧
    (ACQUIRE_RELEASE_PAIR type var scope b).lookup (scope ++ "_pair_" ++ var ++ "_rel")
      = some (((b.counter : Int) + 1) + 1) ∧
    (ACQUIRE_RELEASE_PAIR type var scope b).diags = b.diags ∧
    ((ACQUIRE_RELEASE_PAIR type var scope b).failed ↔ b.failed) ∧
    (test_balanced_resources_function_body (open_block (compile_time_resmgr Build.start).2)).lookup
      "pair_scope_balanced_pair_mem_pair_acq" = some 14 ∧
    (test_balanced_resources_function_body (open_block (compile_time_resmgr Build.start).2)).lookup
      "pair_scope_balanced_pair_mem_pair_rel" = some 15 ∧
    (test_balanced_resources_function_body (open_block (compile_time_resmgr Build.start).2)).lookup
      "pair_scope_balanced_pair_file_pair_acq" = some 17 ∧
    (test_balanced_resources_function_body (open_block (compile_time_resmgr Build.start).2)).lookup
      "pair_scope_balanced_pair_file_pair_rel" = some 18 ∧
    ¬ test_balanced.failed := by
  have h1 : scope ++ "_pair_" ++ var ++ "_rel" ≠ scope ++ "_pair_" ++ var ++ "_acq" :=
    append_left_ne _ (by decide)
  refine ⟨?_, ?_, ?_, ?_, by decide, by decide, by decide, by decide, by decide⟩
  · rw [ACQUIRE_RELEASE_PAIR_eq]; simp [Build.lookup, Frame.find_cons_ne h1]
  · rw [ACQUIRE_RELEASE_PAIR_eq]; simp [Build.lookup]; ring
  · rw [ACQUIRE_RELEASE_PAIR_eq]
  · rw [ACQUIRE_RELEASE_PAIR_eq]; simp [Build.failed]

/-! ## Resource types -/

/-- C8: the code at the failing input.  Every handle that `type_name##_acquire_impl`
returns carries the same `id`, the integer that `NEXT_ID` expanded to where the type was
declared, whatever the call site and the native handle: for the type `memory` of
`compile_time_resmgr.c` the two acquires of `test_balanced.c` (lines 21 and 36) both
return `id = 0`, and every acquire of `file` returns `id = 1`. -/
theorem acquire_ids_repeat (T : ResourceType) (native1 native2 : Nat) (file1 file2 : String)
    (line1 line2 : Int) (w1 w2 : Runtime) :
    (acquire_impl T native1 file1 line1 w1).1.id
      = (acquire_impl T native2 file2 line2 w2).1.id ∧
    (acquire_impl T native1 file1 line1 w1).1.id = T.next_id ∧
    (acquire_impl (compile_time_resmgr Build.start).1.1 native1 "test_balanced.c" 21 w1).1.id
      = 0 ∧
    (acquire_impl (compile_time_resmgr Build.start).1.1 native2 "test_balanced.c" 36 w2).1.id
      = 0 ∧
    (acquire_impl (compile_time_resmgr Build.start).1.2 native1 file1 line1 w1).1.id = 1 :=
  ⟨rfl, rfl, rfl, rfl, rfl⟩

/-! ## The sequence allocator -/

/-- C9: in a sequence of `n` expansions of `NEXT_ID` from the start of a build pass the
values are `0, 1, ..., n - 1`: the first is the base value `0`, each value is strictly
greater than all values before it, and no two are equal.  From any state, too, the
values are strictly increasing and pairwise different, every expansion returns the
counter and leaves it one higher. -/
theorem next_id_strictly_increasing (n : Nat) (b : Build) :
    (NEXT_ID Build.start).1 = 0 ∧
    (next_ids n Build.start).1 = List.range n ∧
    (next_ids (n + 1) Build.start).1.head? = some 0 ∧
    List.Pairwise (fun x y => x < y) (next_ids n b).1 ∧
    (next_ids n b).1.Nodup ∧
    (NEXT_ID b).1 = b.counter ∧
    (NEXT_ID b).1 < (NEXT_ID b).2.counter ∧
    (next_ids n b).2.counter = b.counter + n := by
  refine ⟨rfl, ?_, rfl, ?_, ?_, rfl, ?_, ?_⟩
  · rw [next_ids_fst, List.range_eq_range']; rfl
  · rw [next_ids_fst]; exact List.pairwise_lt_range' _ _
  · rw [next_ids_fst]; exact List.nodup_range' _ _
  · simp [NEXT_ID, COUNTER]
  · rw [next_ids_snd]

/-! ## Release -/

/-- C10: for every resource type, handle, call site and run-time state, `release_impl`
on a null pointer and on a handle whose native handle is null prints nothing, calls no
underlying release and leaves the handle as it is; and a second release directly after
a release, of any handle, changes nothing: the handle, the output and the calls of the
underlying release are those after the first release. -/
theorem release_twice_is_release_once (T : ResourceType) (r : resource_t)
    (res : Option resource_t) (file1 file2 : String) (line1 line2 : Int) (w : Runtime) :
    release_impl T none file1 line1 w = (none, w) ∧
    release_impl T (some { r with handle := 0 }) file1 line1 w
      = (some { r with handle := 0 }, w) ∧
    release_impl T (release_impl T res file1 line1 w).1 file2 line2
        (release_impl T res file1 line1 w).2
      = release_impl T res file1 line1 w := by
  refine ⟨rfl, by simp [release_impl], ?_⟩
  cases res with
  | none => rfl
  | some x =>
    by_cases hx : x.handle = 0
    · simp [release_impl, hx]
    · simp [release_impl, hx]

/-! ## Release of a held resource -/

/-- C11: for every resource type, call site, run-time state and handle whose native
handle is not null, `release_impl` calls the underlying release exactly once, with that
native handle, sets the native handle of the handle to null and leaves its `id`, `file`
and `line` as they are. -/
theorem release_held_resource (T : ResourceType) (r : resource_t) (file : String)
    (line : Int) (w : Runtime) (h : r.handle ≠ 0) :
    (release_impl T (some r) file line w).2.released
      = w.released ++ [(T.type_name, r.handle)] ∧
    (release_impl T (some r) file line w).1
      = some { handle := 0, id := r.id, file := r.file, line := r.line } := by
  simp [release_impl, h]

/-- C11, on a handle of the type `memory` with native handle 4096, acquired at
`test_balanced.c:21` and released at `test_balanced.c:30`. -/
theorem release_held_resource_witness :
    (4096 : Nat) ≠ 0 ∧
    (release_impl (compile_time_resmgr Build.start).1.1
        (some { handle := 4096, id := 0, file := "test_balanced.c", line := 21 })
        "test_balanced.c" 30 { out := [], released := [] }).2.released
      = [] ++ [("memory", 4096)] ∧
    (release_impl (compile_time_resmgr Build.start).1.1
        (some { handle := 4096, id := 0, file := "test_balanced.c", line := 21 })
        "test_balanced.c" 30 { out := [], released := [] }).1
      = some { handle := 0, id := 0, file := "test_balanced.c", line := 21 } :=
  ⟨by decide,
    release_held_resource (compile_time_resmgr Build.start).1.1
      { handle := 4096, id := 0, file := "test_balanced.c", line := 21 }
      "test_balanced.c" 30 { out := [], released := [] } (by decide)⟩

/-! ## Text of the build-time diagnostics -/

theorem contains_mid (pre x post : String) : contains (pre ++ x ++ post) x :=
  ⟨pre.data, post.data, by simp⟩

theorem contains_last (pre x : String) : contains (pre ++ x) x :=
  ⟨pre.data, [], by simp⟩

theorem contains_append_left {a x : String} (b : String) (h : contains a x) :
    contains (a ++ b) x := by
  obtain ⟨p, q, e⟩ := h
  exact ⟨p, q ++ b.data, by simp [← e]⟩

theorem contains_append_right {b x : String} (a : String) (h : contains b x) :
    contains (a ++ b) x := by
  obtain ⟨p, q, e⟩ := h
  exact ⟨a.data ++ p, q, by simp [← e]⟩

theorem lower_append (a b : String) : lower (a ++ b) = lower a ++ lower b := by
  apply String.ext
  simp [lower]

set_option maxRecDepth 100000

/-- C12, counterexample: a function region with a single acquire, at the start of a
build, fails with exactly the function-level message, and that message for the function
`balanced_func_scope` does not contain the phrase "resource leak", in any letter case. -/
theorem function_message_lacks_resource_leak :
    (FUNCTION_BALANCE "balanced_func_scope"
        [Item.direct (Op.acquire "memory" "mem1" "scope1")] Build.start).diags
      = [Diag.static_assertion (function_message "balanced_func_scope")] ∧
    ¬ contains (function_message "balanced_func_scope") "resource leak" ∧
    ¬ contains (lower (function_message "balanced_func_scope")) "resource leak" := by
  refine ⟨by decide, by decide, by decide⟩

/-- C12, amended: the message of the scope-level assertion contains the name of the
scope and the phrase "Resource leak"; the message of the function-level assertion
contains the name of the function and the phrase "unbalanced resource operations"; the
message of the assertion of the pair contains the phrase "Missing release", the variable
and the scope.  These messages are the only diagnostics that the scope region and the
pair can add. -/
theorem diagnostic_messages (name func_name var scope : String) (body : List Op)
    (b : Build) :
    contains (scope_leak_message name) name ∧
    contains (scope_leak_message name) "Resource leak" ∧
    contains (lower (scope_leak_message name)) "resource leak" ∧
    contains (function_message func_name) func_name ∧
    contains (function_message func_name) "unbalanced resource operations" ∧
    contains (pair_message var scope) "Missing release" ∧
    contains (lower (pair_message var scope)) "missing release" ∧
    contains (pair_message var scope) var ∧
    contains (pair_message var scope) scope ∧
    ((BALANCED_SCOPE name body b).diags = b.diags ∨
      (BALANCED_SCOPE name body b).diags
        = b.diags ++ [Diag.static_assertion (scope_leak_message name)]) := by
  refine ⟨contains_mid _ _ _, ?_, ?_, contains_mid _ _ _, ?_, ?_, ?_, ?_, contains_last _ _, ?_⟩
  · exact contains_append_left _ (contains_append_left _ (by decide))
  · unfold scope_leak_message
    rw [lower_append, lower_append]
    exact contains_append_left _ (contains_append_left _ (by decide))
  · exact contains_append_right _ (by decide)
  · exact contains_append_left _ (contains_append_left _ (contains_append_left _ (by decide)))
  · unfold pair_message
    rw [lower_append, lower_append, lower_append]
    exact contains_append_left _ (contains_append_left _ (contains_append_left _ (by decide)))
  · exact contains_append_left _ (contains_append_left _ (contains_last _ _))
  · rw [BALANCED_SCOPE_diags]
    rcases Nat.mod_two_eq_zero_or_one (events body) with h | h
    · left; simp [scope_verdict_even h]
    · right; simp [scope_verdict_odd h]

/-! ## Scopes that hold other regions -/

theorem BALANCED_SCOPE_BEGIN_eq (name : String) (b : Build) :
    BALANCED_SCOPE_BEGIN name b =
      { counter := b.counter + 1,
        top := [],
        outer := ((name ++ "_scope_start", (b.counter : Int)) :: b.top) :: b.outer,
        diags := b.diags } := by
  simp [BALANCED_SCOPE_BEGIN, open_block, define_enum, COUNTER]

/-- A scope region with pairs in its body. -/
theorem scope_of_pairs_eq (name : String) (k : Nat) (r b : Build)
    (ho : r.outer = ((name ++ "_scope_start", (b.counter : Int)) :: b.top) :: b.outer)
    (hc : r.counter = b.counter + 1 + k) (hd : r.diags = b.diags) :
    (BALANCED_SCOPE_END name r).lookup (name ++ "_total_ops") = some (k : Int) ∧
    (BALANCED_SCOPE_END name r).diags = b.diags ++ scope_verdict name k := by
  rw [BALANCED_SCOPE_END_eq name r _ _ b.counter k ho (by simp) hc, hd]
  simp [Build.lookup]

/-- C13, counterexample: a scope `s` begun inside the body of the open scope `s`.  The
inner `BALANCED_SCOPE_BEGIN(s)` adds no diagnostic, and the whole nested region, with
one acquire and one release in the inner scope and one acquire before and one release
after it in the outer scope, builds. -/
theorem nested_same_name_scope_builds :
    (BALANCED_SCOPE_BEGIN "s"
        (run_ops [Op.acquire "memory" "a" "s"] (BALANCED_SCOPE_BEGIN "s" Build.start))).diags
      = [] ∧
    ¬ (BALANCED_SCOPE_END "s"
        (run_ops [Op.release "memory" "a" "s"]
          (BALANCED_SCOPE "s" [Op.acquire "memory" "b" "s", Op.release "memory" "b" "s"]
            (run_ops [Op.acquire "memory" "a" "s"]
              (BALANCED_SCOPE_BEGIN "s" Build.start))))).failed := by
  refine ⟨by decide, by decide⟩

/-- C13, amended: for every state, scope name and bodies `pre`, `inner` and `post` made
only of `ACQUIRE_RESOURCE` and `RELEASE_RESOURCE` operations and of statements that
expand no counter: a `BALANCED_SCOPE_BEGIN(name)` that follows `pre` inside the body of
an open scope of the same name adds no diagnostic; the region it opens, with the body
`inner`, resolves its own start marker and has `name##_total_ops` equal to its number of
operations; the outer region, closed after `post`, resolves the outer start marker and
counts the inner region as its operations plus two; the diagnostics added are those of
the two parity checks, and none is added exactly when both counts are even. -/
theorem nested_same_name_scope (b : Build) (name : String) (pre inner post : List Op) :
    (BALANCED_SCOPE_BEGIN name (run_ops pre (BALANCED_SCOPE_BEGIN name b))).diags = b.diags ∧
    (BALANCED_SCOPE name inner (run_ops pre (BALANCED_SCOPE_BEGIN name b))).lookup
        (name ++ "_total_ops") = some (events inner : Int) ∧
    (BALANCED_SCOPE_END name (run_ops post (BALANCED_SCOPE name inner
        (run_ops pre (BALANCED_SCOPE_BEGIN name b))))).lookup (name ++ "_total_ops")
      = some ((events pre + (events inner + 2) + events post : Nat) : Int) ∧
    (BALANCED_SCOPE_END name (run_ops post (BALANCED_SCOPE name inner
        (run_ops pre (BALANCED_SCOPE_BEGIN name b))))).diags
      = b.diags ++ scope_verdict name (events inner)
          ++ scope_verdict name (events pre + (events inner + 2) + events post) ∧
    ((BALANCED_SCOPE_END name (run_ops post (BALANCED_SCOPE name inner
        (run_ops pre (BALANCED_SCOPE_BEGIN name b))))).diags = b.diags
      ↔ Even (events inner) ∧ Even (events pre + events post)) := by
  have hpre : (run_ops pre (BALANCED_SCOPE_BEGIN name b)).diags = b.diags := by
    rw [run_ops_diags, BALANCED_SCOPE_BEGIN_eq]
  have ho : (run_ops post (BALANCED_SCOPE name inner
      (run_ops pre (BALANCED_SCOPE_BEGIN name b)))).outer
      = ((name ++ "_scope_start", (b.counter : Int)) :: b.top) :: b.outer := by
    rw [run_ops_outer, BALANCED_SCOPE_eq, run_ops_outer, BALANCED_SCOPE_BEGIN_eq]
  have hc : (run_ops post (BALANCED_SCOPE name inner
      (run_ops pre (BALANCED_SCOPE_BEGIN name b)))).counter
      = b.counter + 1 + (events pre + (events inner + 2) + events post) := by
    rw [run_ops_counter, BALANCED_SCOPE_eq, run_ops_counter, BALANCED_SCOPE_BEGIN_eq]
    simp only []
    omega
  have hd : (run_ops post (BALANCED_SCOPE name inner
      (run_ops pre (BALANCED_SCOPE_BEGIN name b)))).diags
      = b.diags ++ scope_verdict name (events inner) := by
    rw [run_ops_diags, BALANCED_SCOPE_diags, hpre]
  have hend := BALANCED_SCOPE_END_eq name _ _ _ b.counter
    (events pre + (events inner + 2) + events post) ho (by simp) hc
  refine ⟨?_, ?_, ?_, ?_, ?_⟩
  · rw [BALANCED_SCOPE_BEGIN_eq]; exact hpre
  · rw [BALANCED_SCOPE_eq]; simp [Build.lookup]
  · rw [hend]; simp [Build.lookup]
  · rw [hend, hd]
  · rw [hend, hd, Nat.even_iff, Nat.even_iff]
    rcases Nat.mod_two_eq_zero_or_one (events inner) with h1 | h1 <;>
    rcases Nat.mod_two_eq_zero_or_one (events pre + events post) with h2 | h2 <;>
    simp [scope_verdict, h1, h2, Nat.add_mod] <;> omega

/-! ## Tracked scopes -/

theorem append_append_ne (n v : String) {x y : String}
    (h : ∀ t : List Char, x.data ++ t ≠ y.data) : n ++ x ++ v ≠ n ++ y := by
  intro e
  have e2 := congrArg String.data e
  simp only [String.data_append, List.append_assoc, List.append_cancel_left_eq] at e2
  exact h _ e2

theorem append_ne_append_append (n v : String) {x y : String}
    (h : ∀ t : List Char, x.data ++ t ≠ y.data) : n ++ y ≠ n ++ x ++ v :=
  fun e => append_append_ne n v h e.symm

/-- C17: the code at the failing input, for every state before the region, scope name,
resource type and variable.  The tracked region with one `ACQUIRE_TRACKED` followed by
its `RELEASE_TRACKED` has `scope_name##_end - scope_name##_start = 3`, so the static
assertion of `END_TRACKED_SCOPE` fails and the build fails; the region with the
`ACQUIRE_TRACKED` alone has the difference 2 and adds no diagnostic. -/
theorem tracked_scope_check_is_inverted (b : Build) (scope_name type_name var_name : String) :
    (END_TRACKED_SCOPE scope_name (RELEASE_TRACKED type_name var_name scope_name
        (ACQUIRE_TRACKED type_name var_name scope_name
          (BEGIN_TRACKED_SCOPE scope_name b)))).diags
      = b.diags ++ [Diag.static_assertion (tracked_message scope_name)] ∧
    (END_TRACKED_SCOPE scope_name (RELEASE_TRACKED type_name var_name scope_name
        (ACQUIRE_TRACKED type_name var_name scope_name
          (BEGIN_TRACKED_SCOPE scope_name b)))).failed ∧
    (END_TRACKED_SCOPE scope_name
        (ACQUIRE_TRACKED type_name var_name scope_name
          (BEGIN_TRACKED_SCOPE scope_name b))).diags = b.diags ∧
    ¬ (END_TRACKED_SCOPE "s" (ACQUIRE_TRACKED "memory" "m" "s"
        (BEGIN_TRACKED_SCOPE "s" Build.start))).failed := by
  have n1 : scope_name ++ "_acq_" ++ var_name ≠ scope_name ++ "_balance" :=
    append_append_ne _ _ (by intro t; simp)
  have n2 : scope_name ++ "_rel_" ++ var_name ≠ scope_name ++ "_balance_after_" ++ var_name := by
    intro e
    have e2 := congrArg String.data e
    simp at e2
  have n3 : scope_name ++ "_end" ≠ scope_name ++ "_start" := append_left_ne _ (by decide)
  have n4 : scope_name ++ "_balance_after_rel_" ++ var_name ≠ scope_name ++ "_start" :=
    append_append_ne _ _ (by intro t; simp)
  have n5 : scope_name ++ "_rel_" ++ var_name ≠ scope_name ++ "_start" :=
    append_append_ne _ _ (by intro t; simp)
  have n6 : scope_name ++ "_balance_after_" ++ var_name ≠ scope_name ++ "_start" :=
    append_append_ne _ _ (by intro t; simp)
  have n7 : scope_name ++ "_acq_" ++ var_name ≠ scope_name ++ "_start" :=
    append_append_ne _ _ (by intro t; simp)
  have n8 : scope_name ++ "_balance" ≠ scope_name ++ "_start" := append_left_ne _ (by decide)
  have a1 : Int.tmod ((b.counter : Int) + 1 + 1 + 1 - (b.counter : Int)) 2 = 1 := by
    have : (b.counter : Int) + 1 + 1 + 1 - (b.counter : Int) = 3 := by ring
    rw [this]; rfl
  have a2 : Int.tmod ((b.counter : Int) + 1 + 1 - (b.counter : Int)) 2 = 0 := by
    have : (b.counter : Int) + 1 + 1 - (b.counter : Int) = 2 := by ring
    rw [this]; rfl
  refine ⟨?_, ?_, ?_, by decide⟩
  · simp [END_TRACKED_SCOPE, RELEASE_TRACKED, ACQUIRE_TRACKED, BEGIN_TRACKED_SCOPE, open_block,
      close_block, define_enum, static_assert, COUNTER, Build.lookup, Frame.find_cons_ne,
      n1, n2, n3, n4, n5, n6, n7, n8, a1]
  · simp [END_TRACKED_SCOPE, RELEASE_TRACKED, ACQUIRE_TRACKED, BEGIN_TRACKED_SCOPE, open_block,
      close_block, define_enum, static_assert, COUNTER, Build.lookup, Frame.find_cons_ne,
      n1, n2, n3, n4, n5, n6, n7, n8, a1, Build.failed]
  · simp [END_TRACKED_SCOPE, ACQUIRE_TRACKED, BEGIN_TRACKED_SCOPE, open_block,
      close_block, define_enum, static_assert, COUNTER, Build.lookup, Frame.find_cons_ne,
      n1, n3, n6, n7, n8, a2]

/-! ## Scopes that hold pairs -/

/-- C18: for every state, scope name and arguments, one use of `ACQUIRE_RELEASE_PAIR`
advances the counter by exactly three (start, acquire, release).  A scope whose body is
exactly one pair has `name##_total_ops = 3` and fails the parity check; a scope whose
body is exactly two pairs has `name##_total_ops = 6` and passes. -/
theorem pair_counts_as_three_events (b : Build) (name t v s t2 v2 s2 : String) :
    (ACQUIRE_RELEASE_PAIR t v s b).counter = b.counter + 3 ∧
    (BALANCED_SCOPE_END name (ACQUIRE_RELEASE_PAIR t v s
        (BALANCED_SCOPE_BEGIN name b))).lookup (name ++ "_total_ops") = some 3 ∧
    (BALANCED_SCOPE_END name (ACQUIRE_RELEASE_PAIR t v s
        (BALANCED_SCOPE_BEGIN name b))).diags
      = b.diags ++ [Diag.static_assertion (scope_leak_message name)] ∧
    (BALANCED_SCOPE_END name (ACQUIRE_RELEASE_PAIR t v s
        (BALANCED_SCOPE_BEGIN name b))).failed ∧
    (BALANCED_SCOPE_END name (ACQUIRE_RELEASE_PAIR t2 v2 s2 (ACQUIRE_RELEASE_PAIR t v s
        (BALANCED_SCOPE_BEGIN name b)))).lookup (name ++ "_total_ops") = some 6 ∧
    (BALANCED_SCOPE_END name (ACQUIRE_RELEASE_PAIR t2 v2 s2 (ACQUIRE_RELEASE_PAIR t v s
        (BALANCED_SCOPE_BEGIN name b)))).diags = b.diags := by
  have one := scope_of_pairs_eq name 3
    (ACQUIRE_RELEASE_PAIR t v s (BALANCED_SCOPE_BEGIN name b)) b
    (by rw [ACQUIRE_RELEASE_PAIR_eq, BALANCED_SCOPE_BEGIN_eq])
    (by rw [ACQUIRE_RELEASE_PAIR_eq, BALANCED_SCOPE_BEGIN_eq])
    (by rw [ACQUIRE_RELEASE_PAIR_eq, BALANCED_SCOPE_BEGIN_eq])
  have two := scope_of_pairs_eq name 6
    (ACQUIRE_RELEASE_PAIR t2 v2 s2 (ACQUIRE_RELEASE_PAIR t v s (BALANCED_SCOPE_BEGIN name b))) b
    (by rw [ACQUIRE_RELEASE_PAIR_eq, ACQUIRE_RELEASE_PAIR_eq, BALANCED_SCOPE_BEGIN_eq])
    (by rw [ACQUIRE_RELEASE_PAIR_eq, ACQUIRE_RELEASE_PAIR_eq, BALANCED_SCOPE_BEGIN_eq])
    (by rw [ACQUIRE_RELEASE_PAIR_eq, ACQUIRE_RELEASE_PAIR_eq, BALANCED_SCOPE_BEGIN_eq])
  refine ⟨by rw [ACQUIRE_RELEASE_PAIR_eq], one.1, ?_, ?_, two.1, ?_⟩
  · rw [one.2]; simp [scope_verdict]
  · simp [Build.failed, one.2, scope_verdict]
  · rw [two.2]; simp [scope_verdict]

/-! ## The function-level check -/

theorem ne_start_counter_of_last (x f suffix : String) (hne : suffix.data ≠ [])
    (h : suffix.data.getLast? ≠ some (Char.ofNat 114)) :
    x ++ suffix ≠ f ++ "_start_counter" := by
  intro e
  have e2 := congrArg (fun s => s.data.getLast?) e
  simp only [String.data_append, List.getLast?_append_of_ne_nil _ hne] at e2
  rw [List.getLast?_append_of_ne_nil _ (by decide)] at e2
  exact h (e2.trans (by decide))

theorem item_run_counter (it : Item) (b : Build) :
    (it.run b).counter
      = b.counter + (scope_ids [it] + 3 * pairs [it] + direct_events [it]) := by
  cases it with
  | scope name body => simp [Item.run, BALANCED_SCOPE_eq, scope_ids, pairs, direct_events]; omega
  | pair t v s => simp [Item.run, ACQUIRE_RELEASE_PAIR_eq, scope_ids, pairs, direct_events]
  | direct op => simp [Item.run, Op.run_counter, scope_ids, pairs, direct_events]

theorem item_run_outer (it : Item) (b : Build) : (it.run b).outer = b.outer := by
  cases it with
  | scope name body => simp [Item.run, BALANCED_SCOPE_eq]
  | pair t v s => simp [Item.run, ACQUIRE_RELEASE_PAIR_eq]
  | direct op => simp [Item.run, Op.run_outer]

theorem item_run_diags (it : Item) (b : Build) :
    (it.run b).diags = b.diags ++ inner_verdicts [it] := by
  cases it with
  | scope name body => simp [Item.run, BALANCED_SCOPE_eq, inner_verdicts]
  | pair t v s => simp [Item.run, ACQUIRE_RELEASE_PAIR_eq, inner_verdicts]
  | direct op => simp [Item.run, Op.run_diags, inner_verdicts]

theorem item_run_find (it : Item) (b : Build) (f : String)
    (h : it.constant ≠ some (f ++ "_start_counter")) :
    Frame.find (f ++ "_start_counter") (it.run b).top
      = Frame.find (f ++ "_start_counter") b.top := by
  cases it with
  | scope name body =>
    simp only [Item.run, BALANCED_SCOPE_eq]
    rw [Frame.find_cons_ne (ne_start_counter_of_last _ f "_total_ops" (by decide) (by decide)),
      Frame.find_cons_ne (ne_start_counter_of_last _ f "_scope_end" (by decide) (by decide)),
      Frame.find_cons_ne (ne_start_counter_of_last _ f "_scope_start" (by decide) (by decide))]
  | pair t v s =>
    simp only [Item.run, ACQUIRE_RELEASE_PAIR_eq]
    rw [Frame.find_cons_ne (ne_start_counter_of_last _ f "_rel" (by decide) (by decide)),
      Frame.find_cons_ne (ne_start_counter_of_last _ f "_acq" (by decide) (by decide)),
      Frame.find_cons_ne (ne_start_counter_of_last _ f "_start" (by decide) (by decide))]
  | direct op =>
    cases op with
    | acquire t v s =>
      have h2 : s ++ "_acquire_" ++ v ≠ f ++ "_start_counter" := by
        simpa [Item.constant, Op.constant] using h
      simp [Item.run, Op.run, ACQUIRE_RESOURCE, define_enum, COUNTER, Frame.find_cons_ne h2]
    | release t v s =>
      have h2 : s ++ "_release_" ++ v ≠ f ++ "_start_counter" := by
        simpa [Item.constant, Op.constant] using h
      simp [Item.run, Op.run, RELEASE_RESOURCE, define_enum, COUNTER, Frame.find_cons_ne h2]
    | stmt => rfl

theorem items_cons (it : Item) (rest : List Item) :
    scope_ids (it :: rest) = scope_ids [it] + scope_ids rest ∧
    pairs (it :: rest) = pairs [it] + pairs rest ∧
    direct_events (it :: rest) = direct_events [it] + direct_events rest ∧
    inner_verdicts (it :: rest) = inner_verdicts [it] ++ inner_verdicts rest := by
  cases it <;> (simp [scope_ids, pairs, direct_events, inner_verdicts]; try omega)

theorem run_items_counter (items : List Item) (b : Build) :
    (run_items items b).counter
      = b.counter + (scope_ids items + 3 * pairs items + direct_events items) := by
  induction items generalizing b with
  | nil => simp [run_items, scope_ids, pairs, direct_events]
  | cons it rest ih =>
    obtain ⟨h1, h2, h3, _⟩ := items_cons it rest
    rw [run_items, ih, item_run_counter, h1, h2, h3]; omega

theorem run_items_outer (items : List Item) (b : Build) :
    (run_items items b).outer = b.outer := by
  induction items generalizing b with
  | nil => rfl
  | cons it rest ih => rw [run_items, ih, item_run_outer]

theorem run_items_diags (items : List Item) (b : Build) :
    (run_items items b).diags = b.diags ++ inner_verdicts items := by
  induction items generalizing b with
  | nil => simp [run_items, inner_verdicts]
  | cons it rest ih =>
    rw [run_items, ih, item_run_diags, (items_cons it rest).2.2.2, List.append_assoc]

theorem run_items_find (items : List Item) (b : Build) (f : String)
    (h : ∀ it ∈ items, it.constant ≠ some (f ++ "_start_counter")) :
    Frame.find (f ++ "_start_counter") (run_items items b).top
      = Frame.find (f ++ "_start_counter") b.top := by
  induction items generalizing b with
  | nil => rfl
  | cons it rest ih =>
    rw [run_items, ih _ (fun x hx => h x (List.mem_cons_of_mem _ hx)),
      item_run_find it b f (h it (List.mem_cons_self _ _))]

/-- The end of a function region, on a state whose block holds the start marker `s` and
whose counter is `k + 1` past it. -/
theorem FUNCTION_BALANCE_END_eq (f : String) (r : Build) (s k : Nat)
    (hs : Frame.find (f ++ "_start_counter") r.top = some (s : Int))
    (hk : r.counter = s + 1 + k) :
    FUNCTION_BALANCE_END f r =
      { counter := r.counter + 1,
        top := (f ++ "_op_count", (k : Int)) :: (f ++ "_end_counter", (r.counter : Int)) :: r.top,
        outer := r.outer,
        diags := r.diags ++ function_verdict f k } := by
  have h1 : f ++ "_end_counter" ≠ f ++ "_start_counter" := append_left_ne f (by decide)
  have h2 : (r.counter : Int) - (s : Int) - 1 = (k : Int) := by rw [hk]; push_cast; ring
  simp only [FUNCTION_BALANCE_END, COUNTER, define_enum, Build.lookup,
    Frame.find_cons_self, Frame.find_cons_ne h1, hs, bind, Option.bind, pure, h2]
  by_cases hpar : k % 2 = 0
  · simp [static_assert, function_verdict, hpar, (tmod_two_natCast k).2 hpar]
  · have : ¬ Int.tmod (k : Int) 2 = 0 := fun h => hpar ((tmod_two_natCast k).1 h)
    simp [static_assert, function_verdict, hpar, this]

/-- The whole state after a function region whose items leave the start marker alone. -/
theorem FUNCTION_BALANCE_eq (f : String) (items : List Item) (b : Build)
    (h : ∀ it ∈ items, it.constant ≠ some (f ++ "_start_counter")) :
    (FUNCTION_BALANCE f items b).lookup (f ++ "_op_count")
      = some ((scope_ids items + 3 * pairs items + direct_events items : Nat) : Int) ∧
    (FUNCTION_BALANCE f items b).diags
      = b.diags ++ inner_verdicts items
        ++ function_verdict f (scope_ids items + 3 * pairs items + direct_events items) := by
  have hs : Frame.find (f ++ "_start_counter")
      (run_items items (FUNCTION_BALANCE_START f b)).top = some (b.counter : Int) := by
    rw [run_items_find items _ f h]
    simp [FUNCTION_BALANCE_START, define_enum, COUNTER]
  have hk : (run_items items (FUNCTION_BALANCE_START f b)).counter
      = b.counter + 1 + (scope_ids items + 3 * pairs items + direct_events items) := by
    rw [run_items_counter]; simp [FUNCTION_BALANCE_START, define_enum, COUNTER]
  have hd : (run_items items (FUNCTION_BALANCE_START f b)).diags
      = b.diags ++ inner_verdicts items := by
    rw [run_items_diags]; simp [FUNCTION_BALANCE_START, define_enum, COUNTER]
  unfold FUNCTION_BALANCE
  rw [FUNCTION_BALANCE_END_eq f _ b.counter _ hs hk, hd]
  simp [Build.lookup]

theorem scope_ids_even_of_inner_verdicts (items : List Item) (h : inner_verdicts items = []) :
    scope_ids items % 2 = 0 := by
  induction items with
  | nil => rfl
  | cons it rest ih =>
    cases it with
    | scope name body =>
      simp only [inner_verdicts, List.append_eq_nil] at h
      have hb : events body % 2 = 0 := by
        by_contra hne
        simp [scope_verdict, hne] at h
      have := ih h.2
      simp only [scope_ids]; omega
    | pair t v s => simpa [scope_ids, inner_verdicts] using ih (by simpa [inner_verdicts] using h)
    | direct op => simpa [scope_ids, inner_verdicts] using ih (by simpa [inner_verdicts] using h)

/-- C14: for every function name, state before the region (so every initial counter
value) and three pairs of an `ACQUIRE_RESOURCE` followed by its `RELEASE_RESOURCE`, none
of which declares the start marker of the function again, the function region over the
three pairs has `func_name##_op_count = 6` and adds no diagnostic, and the same region
without the release of the last pair has the count 5 and adds exactly the failed
function-level assertion. -/
theorem three_pairs_pass_and_missing_release_fails (b : Build)
    (f t1 v1 s1 t2 v2 s2 t3 v3 s3 : String)
    (h : ∀ it ∈ [Item.direct (Op.acquire t1 v1 s1), Item.direct (Op.release t1 v1 s1),
        Item.direct (Op.acquire t2 v2 s2), Item.direct (Op.release t2 v2 s2),
        Item.direct (Op.acquire t3 v3 s3), Item.direct (Op.release t3 v3 s3)],
      it.constant ≠ some (f ++ "_start_counter")) :
    (FUNCTION_BALANCE f
        [Item.direct (Op.acquire t1 v1 s1), Item.direct (Op.release t1 v1 s1),
         Item.direct (Op.acquire t2 v2 s2), Item.direct (Op.release t2 v2 s2),
         Item.direct (Op.acquire t3 v3 s3), Item.direct (Op.release t3 v3 s3)] b).lookup
        (f ++ "_op_count") = some 6 ∧
    (FUNCTION_BALANCE f
        [Item.direct (Op.acquire t1 v1 s1), Item.direct (Op.release t1 v1 s1),
         Item.direct (Op.acquire t2 v2 s2), Item.direct (Op.release t2 v2 s2),
         Item.direct (Op.acquire t3 v3 s3), Item.direct (Op.release t3 v3 s3)] b).diags
      = b.diags ∧
    (FUNCTION_BALANCE f
        [Item.direct (Op.acquire t1 v1 s1), Item.direct (Op.release t1 v1 s1),
         Item.direct (Op.acquire t2 v2 s2), Item.direct (Op.release t2 v2 s2),
         Item.direct (Op.acquire t3 v3 s3)] b).lookup (f ++ "_op_count") = some 5 ∧
    (FUNCTION_BALANCE f
        [Item.direct (Op.acquire t1 v1 s1), Item.direct (Op.release t1 v1 s1),
         Item.direct (Op.acquire t2 v2 s2), Item.direct (Op.release t2 v2 s2),
         Item.direct (Op.acquire t3 v3 s3)] b).diags
      = b.diags ++ [Diag.static_assertion (function_message f)] ∧
    (FUNCTION_BALANCE f
        [Item.direct (Op.acquire t1 v1 s1), Item.direct (Op.release t1 v1 s1),
         Item.direct (Op.acquire t2 v2 s2), Item.direct (Op.release t2 v2 s2),
         Item.direct (Op.acquire t3 v3 s3)] b).failed := by
  have h5 : ∀ it ∈ [Item.direct (Op.acquire t1 v1 s1), Item.direct (Op.release t1 v1 s1),
        Item.direct (Op.acquire t2 v2 s2), Item.direct (Op.release t2 v2 s2),
        Item.direct (Op.acquire t3 v3 s3)],
      it.constant ≠ some (f ++ "_start_counter") := by
    intro it hit
    apply h it
    simp only [List.mem_cons, List.mem_singleton, List.not_mem_nil, or_false] at hit ⊢
    tauto
  have six := FUNCTION_BALANCE_eq f _ b h
  have five := FUNCTION_BALANCE_eq f _ b h5
  refine ⟨six.1, ?_, five.1, ?_, ?_⟩
  · rw [six.2]
    simp [inner_verdicts, function_verdict, scope_ids, pairs, direct_events, events, acquires,
      releases]
  · rw [five.2]
    simp [inner_verdicts, function_verdict, scope_ids, pairs, direct_events, events, acquires,
      releases]
  · rw [Build.failed, five.2]
    simp [inner_verdicts, function_verdict, scope_ids, pairs, direct_events, events, acquires,
      releases]

/-- C14, on scenario C: the function `balanced_func_scope` with three pairs of memory,
at the start of a build. -/
theorem three_pairs_pass_and_missing_release_fails_witness :
    (FUNCTION_BALANCE "balanced_func_scope"
        [Item.direct (Op.acquire "memory" "a" "s"), Item.direct (Op.release "memory" "a" "s"),
         Item.direct (Op.acquire "memory" "b" "s"), Item.direct (Op.release "memory" "b" "s"),
         Item.direct (Op.acquire "memory" "c" "s"), Item.direct (Op.release "memory" "c" "s")]
        Build.start).diags = Build.start.diags ∧
    (FUNCTION_BALANCE "balanced_func_scope"
        [Item.direct (Op.acquire "memory" "a" "s"), Item.direct (Op.release "memory" "a" "s"),
         Item.direct (Op.acquire "memory" "b" "s"), Item.direct (Op.release "memory" "b" "s"),
         Item.direct (Op.acquire "memory" "c" "s")]
        Build.start).diags
      = Build.start.diags
        ++ [Diag.static_assertion (function_message "balanced_func_scope")] :=
  ⟨(three_pairs_pass_and_missing_release_fails Build.start "balanced_func_scope"
      "memory" "a" "s" "memory" "b" "s" "memory" "c" "s" (by decide)).2.1,
   (three_pairs_pass_and_missing_release_fails Build.start "balanced_func_scope"
      "memory" "a" "s" "memory" "b" "s" "memory" "c" "s" (by decide)).2.2.2.1⟩

/-- C16: for every function name, state before the region and function body made of
scope regions, pairs and direct operations in any order, none of which declares the
start marker of the function again, `func_name##_op_count` is the sum of `k + 2` over
the scope regions plus three times the number of pairs plus the number of direct
operations; the region adds the diagnostics of its scope regions and then that of the
parity of this count; and when every inner scope passes its own check, the region adds
no diagnostic exactly when the number of pairs plus the number of direct operations is
even. -/
theorem function_op_count_composition (b : Build) (f : String) (items : List Item)
    (h : ∀ it ∈ items, it.constant ≠ some (f ++ "_start_counter")) :
    (FUNCTION_BALANCE f items b).lookup (f ++ "_op_count")
      = some ((scope_ids items + 3 * pairs items + direct_events items : Nat) : Int) ∧
    (FUNCTION_BALANCE f items b).diags
      = b.diags ++ inner_verdicts items
        ++ function_verdict f (scope_ids items + 3 * pairs items + direct_events items) ∧
    (inner_verdicts items = [] →
      ((FUNCTION_BALANCE f items b).diags = b.diags
        ↔ Even (pairs items + direct_events items))) := by
  obtain ⟨h1, h2⟩ := FUNCTION_BALANCE_eq f items b h
  refine ⟨h1, h2, ?_⟩
  intro hin
  have hs := scope_ids_even_of_inner_verdicts items hin
  rw [h2, hin, Nat.even_iff]
  rcases Nat.mod_two_eq_zero_or_one (pairs items + direct_events items) with hp | hp
  · have : (scope_ids items + 3 * pairs items + direct_events items) % 2 = 0 := by omega
    simp [function_verdict, this, hp]
  · have : (scope_ids items + 3 * pairs items + direct_events items) % 2 = 1 := by omega
    simp [function_verdict, this, hp]

/-- C16, on the test: the body of `test_balanced_resources_function`, scopes of 4 and 2
events plus two pairs, at the place it has in `test_balanced.c`: the count is 16, both
inner scopes pass, the region adds no diagnostic and the file builds. -/
theorem function_op_count_composition_witness :
    (∀ it ∈ test_balanced_items, it.constant ≠ some ("balanced_func_scope" ++ "_start_counter")) ∧
    FUNCTION_BALANCE "balanced_func_scope" test_balanced_items
        (open_block (compile_time_resmgr Build.start).2)
      = test_balanced_resources_function_body (open_block (compile_time_resmgr Build.start).2) ∧
    (FUNCTION_BALANCE "balanced_func_scope" test_balanced_items
        (open_block (compile_time_resmgr Build.start).2)).lookup
        ("balanced_func_scope" ++ "_op_count") = some 16 ∧
    inner_verdicts test_balanced_items = [] ∧
    Even (pairs test_balanced_items + direct_events test_balanced_items) ∧
    (FUNCTION_BALANCE "balanced_func_scope" test_balanced_items
        (open_block (compile_time_resmgr Build.start).2)).diags
      = (open_block (compile_time_resmgr Build.start).2).diags ∧
    ¬ test_balanced.failed :=
  ⟨by decide, rfl,
    (function_op_count_composition _ "balanced_func_scope" test_balanced_items
      (by decide)).1.trans (by decide),
    by decide, by decide,
    ((function_op_count_composition (open_block (compile_time_resmgr Build.start).2)
      "balanced_func_scope" test_balanced_items (by decide)).2.2 (by decide)).2 (by decide),
    by decide⟩

/-! ## The run-time log -/

/-- C15: for every resource type, call site and run-time state, `acquire_impl` writes
exactly one line, whatever native handle the underlying acquire returns, and
`release_impl` on a handle whose native handle is not null writes exactly one line; each
of the two lines contains the name of the resource type, the id stored in the handle,
and the file and the line passed to the call. -/
theorem one_log_line_per_call (T : ResourceType) (native : Nat) (r : resource_t)
    (file : String) (line : Int) (w : Runtime) (h : r.handle ≠ 0) :
    (acquire_impl T native file line w).2.out
      = w.out ++ [acquire_log T.type_name (acquire_impl T native file line w).1.id file line] ∧
    contains (acquire_log T.type_name (acquire_impl T native file line w).1.id file line)
      T.type_name ∧
    contains (acquire_log T.type_name (acquire_impl T native file line w).1.id file line)
      (toString (acquire_impl T native file line w).1.id) ∧
    contains (acquire_log T.type_name (acquire_impl T native file line w).1.id file line)
      file ∧
    contains (acquire_log T.type_name (acquire_impl T native file line w).1.id file line)
      (toString line) ∧
    (release_impl T (some r) file line w).2.out
      = w.out ++ [release_log T.type_name r.id file line] ∧
    contains (release_log T.type_name r.id file line) T.type_name ∧
    contains (release_log T.type_name r.id file line) (toString r.id) ∧
    contains (release_log T.type_name r.id file line) file ∧
    contains (release_log T.type_name r.id file line) (toString line) := by
  refine ⟨rfl, ?_, ?_, ?_, ?_, by simp [release_impl, h], ?_, ?_, ?_, ?_⟩
  · exact contains_append_left _ (contains_append_left _ (contains_append_left _
      (contains_append_left _ (contains_append_left _ (contains_append_left _
        (contains_append_left _ (contains_last _ _)))))))
  · exact contains_append_left _ (contains_append_left _ (contains_append_left _
      (contains_append_left _ (contains_append_left _ (contains_last _ _)))))
  · exact contains_append_left _ (contains_append_left _ (contains_append_left _
      (contains_last _ _)))
  · exact contains_append_left _ (contains_last _ _)
  · exact contains_append_left _ (contains_append_left _ (contains_append_left _
      (contains_append_left _ (contains_append_left _ (contains_append_left _
        (contains_append_left _ (contains_last _ _)))))))
  · exact contains_append_left _ (contains_append_left _ (contains_append_left _
      (contains_append_left _ (contains_append_left _ (contains_last _ _)))))
  · exact contains_append_left _ (contains_append_left _ (contains_append_left _
      (contains_last _ _)))
  · exact contains_append_left _ (contains_last _ _)

/-- C15, on the acquire of `mem1` at `test_balanced.c:21` and its release at line 30,
with the native handle 4096. -/
theorem one_log_line_per_call_witness :
    (4096 : Nat) ≠ 0 ∧
    (acquire_impl (compile_time_resmgr Build.start).1.1 4096 "test_balanced.c" 21
        { out := [], released := [] }).2.out
      = ["[ACQUIRE] memory #0 at test_balanced.c:21\n"] ∧
    (release_impl (compile_time_resmgr Build.start).1.1
        (some { handle := 4096, id := 0, file := "test_balanced.c", line := 21 })
        "test_balanced.c" 30 { out := [], released := [] }).2.out
      = ["[RELEASE] memory #0 at test_balanced.c:30\n"] :=
  ⟨by decide,
    ((one_log_line_per_call (compile_time_resmgr Build.start).1.1 4096
      { handle := 4096, id := 0, file := "test_balanced.c", line := 21 }
      "test_balanced.c" 21 { out := [], released := [] } (by decide)).1).trans (by decide),
    ((one_log_line_per_call (compile_time_resmgr Build.start).1.1 4096
      { handle := 4096, id := 0, file := "test_balanced.c", line := 21 }
      "test_balanced.c" 30 { out := [], released := [] } (by decide)).2.2.2.2.2.1).trans
      (by decide)⟩

end ResMgr
